import Mathlib

/-!
Shallow embedding of the contribution ledger of `src/main.jsx` (the STSM
church wishlist single-page app).

The durable state of one wishlist item is the Firestore document at
`.../wishlistItems/{id}` together with its `contributions` subcollection,
modelled here as `Item × List ContributionRecord`.  JavaScript numbers are
modelled by `JSNum`: NaN, the two infinities, and finite values as exact
rationals (binary-float rounding is not modelled; every comparison in the
source is exact, and every concrete value used below is exactly
representable in double precision).

Embedded operations, each translated from the source:
  * `handleContribute`  — `handleContribute` (main.jsx lines 329-393):
      the `'item'` branch unconditionally writes
      `{status: 'Signed Up', contributorId, contributorName}`;
      the `'cash' && isPartialAllowed` branch validates
      `isNaN(amount) || amount <= 0`, then in one transaction sets
      `currentContributions` and `status` and appends one record;
      any other item falls through both branches (no write, no error).
  * `handleSubmitItemEdit` — the `isEditing` branch of `handleSubmitItem`
      (lines 294-307): overwrites the descriptive fields plus `updatedAt`.
  * `handleSubmitItemAdd` — the add branch of `handleSubmitItem`
      (lines 308-326): fresh item with `status: 'Pending'`,
      `currentContributions: 0`.
`runTransaction` makes the two writes of the cash branch one atomic unit,
so a contribution step is the single function `applyContribute` on the
durable state; `Op`/`step`/`run` chain such operations.
-/

namespace Wishlist

/-- JavaScript number values relevant to the ledger arithmetic: `NaN`,
`Infinity`, `-Infinity`, and finite values as exact rationals. -/
inductive JSNum where
  | nan : JSNum
  | posInf : JSNum
  | negInf : JSNum
  | num : ℚ → JSNum
  deriving DecidableEq, Repr

/-- JavaScript `isNaN` on an already-parsed number. -/
def JSNum.isNaN : JSNum → Bool
  | .nan => true
  | _ => false

/-- JavaScript comparison `x <= 0` (false on NaN). -/
def JSNum.le0 : JSNum → Bool
  | .nan => false
  | .posInf => false
  | .negInf => true
  | .num a => decide (a ≤ 0)

/-- JavaScript addition on numbers (NaN absorbs; opposite infinities give NaN). -/
def JSNum.add : JSNum → JSNum → JSNum
  | .nan, _ => .nan
  | _, .nan => .nan
  | .posInf, .negInf => .nan
  | .posInf, _ => .posInf
  | .negInf, .posInf => .nan
  | .negInf, _ => .negInf
  | .num _, .posInf => .posInf
  | .num _, .negInf => .negInf
  | .num a, .num b => .num (a + b)

/-- JavaScript comparison `x >= y` (false whenever either side is NaN). -/
def JSNum.jge : JSNum → JSNum → Bool
  | .nan, _ => false
  | _, .nan => false
  | .posInf, _ => true
  | _, .posInf => false
  | _, .negInf => true
  | .negInf, _ => false
  | .num a, .num b => decide (b ≤ a)

/-- The source expression `itemDoc.data().currentContributions || 0`: `NaN`
is falsy in JavaScript so it (like a missing field) collapses to `0`; a
falsy `0` also yields `0`, which is the identity here. -/
def jsOr0 (x : JSNum) : JSNum :=
  if x.isNaN then .num 0 else x

/-- Item status strings stored in Firestore: `'Pending' | 'Signed Up' | 'Completed'`.
The spec's names map as Pending ↔ Pending, Committed ↔ Signed Up,
Fulfilled ↔ Completed. -/
inductive Status where
  | pending : Status
  | signedUp : Status
  | completed : Status
  deriving DecidableEq, Repr

/-- The `contributionType` field: `'item'` (the spec's Exclusive mode) or
`'cash'` (the spec's Cumulative mode). -/
inductive ContributionType where
  | item : ContributionType
  | cash : ContributionType
  deriving DecidableEq, Repr

/-- One document of the `wishlistItems` collection.  `expectedCost` is the
spec's `targetCost`, `currentContributions` the spec's `totalContributed`.
Timestamps are abstract naturals. -/
structure Item where
  itemName : String
  category : String
  expectedCost : JSNum
  contributionType : ContributionType
  dateNeeded : String
  isPartialAllowed : Bool
  status : Status
  currentContributions : JSNum
  createdAt : ℕ
  createdBy : Option String
  creatorName : Option String
  contributorId : Option String
  contributorName : Option String
  updatedAt : Option ℕ
  deriving DecidableEq, Repr

/-- One document of an item's `contributions` subcollection, exactly the
fields written by the transaction in `handleContribute`. -/
structure ContributionRecord where
  userId : String
  amount : JSNum
  timestamp : ℕ
  contributorName : String
  deriving DecidableEq, Repr

/-- The add/edit form fields consumed by `handleSubmitItem`; `itemCost` is
already `parseFloat`ed, `allowPartial` is the checkbox state
(`partialContributionAllowed` in the source). -/
structure ItemEdit where
  itemName : String
  category : String
  itemCost : JSNum
  contributionType : ContributionType
  dateNeeded : String
  allowPartial : Bool
  deriving DecidableEq, Repr

/-- The `itemData.isPartialAllowed` expression of `handleSubmitItem`:
`contributionType === 'cash' && partialContributionAllowed`. -/
def editPartialFlag (e : ItemEdit) : Bool :=
  match e.contributionType with
  | .cash => e.allowPartial
  | .item => false

/-- The `isEditing` branch of `handleSubmitItem`: a plain `updateDoc` with
the form's descriptive fields plus `updatedAt`; `status` and
`currentContributions` are not part of the written `itemData`. -/
def handleSubmitItemEdit (it : Item) (e : ItemEdit) (now : ℕ) : Item :=
  { it with
      itemName := e.itemName
      category := e.category
      expectedCost := e.itemCost
      contributionType := e.contributionType
      dateNeeded := e.dateNeeded
      isPartialAllowed := editPartialFlag e
      updatedAt := some now }

/-- The add branch of `handleSubmitItem`: `addDoc` of the form data plus
`status: 'Pending'`, `currentContributions: 0`, creator metadata. -/
def handleSubmitItemAdd (e : ItemEdit) (uid displayName : String) (now : ℕ) : Item :=
  { itemName := e.itemName
    category := e.category
    expectedCost := e.itemCost
    contributionType := e.contributionType
    dateNeeded := e.dateNeeded
    isPartialAllowed := editPartialFlag e
    status := .pending
    currentContributions := .num 0
    createdAt := now
    createdBy := some uid
    creatorName := some displayName
    contributorId := none
    contributorName := none
    updatedAt := none }

/-- Outcome of one `handleContribute` call: the exclusive `updateDoc` write,
the successful cash transaction (item update plus one appended record),
the `invalid contribution amount` alert, or the silent fall-through when
neither branch matches (cash with `isPartialAllowed` false). -/
inductive ContributeOutcome where
  | signedUp : Item → ContributeOutcome
  | contributed : Item → ContributionRecord → ContributeOutcome
  | invalidAmount : ContributeOutcome
  | noop : ContributeOutcome
  deriving DecidableEq, Repr

/-- Translation of `handleContribute` (main.jsx lines 329-393) at the level
of the durable writes it issues.  `amount` is `parseFloat(contributionAmount)`,
`uid` is `user.uid`, `nameToUse` the resolved contributor name, `ts` the
`Date.now()` value.  Note the function never reads `it.status`. -/
def handleContribute (it : Item) (amount : JSNum) (uid nameToUse : String)
    (ts : ℕ) : ContributeOutcome :=
  match it.contributionType with
  | .item =>
      .signedUp
        { it with
            status := .signedUp
            contributorId := some uid
            contributorName := some nameToUse }
  | .cash =>
      if it.isPartialAllowed then
        if amount.isNaN || amount.le0 then
          .invalidAmount
        else
          let cur := jsOr0 it.currentContributions
          let newContributions := cur.add amount
          let newStatus : Status :=
            if newContributions.jge it.expectedCost then .completed else .signedUp
          .contributed
            { it with
                currentContributions := newContributions
                status := newStatus }
            { userId := uid
              amount := amount
              timestamp := ts
              contributorName := nameToUse }
      else
        .noop

/-- Effect of one `handleContribute` call on the durable state.  Firestore's
`runTransaction` commits the item update and the record append atomically,
and the alert / fall-through paths issue no write at all. -/
def applyContribute (s : Item × List ContributionRecord) (amount : JSNum)
    (uid nameToUse : String) (ts : ℕ) : Item × List ContributionRecord :=
  match handleContribute s.1 amount uid nameToUse ts with
  | .signedUp it2 => (it2, s.2)
  | .contributed it2 rec => (it2, s.2 ++ [rec])
  | .invalidAmount => s
  | .noop => s

/-- One core operation against a single item's durable state. -/
inductive Op where
  | contribute : JSNum → String → String → ℕ → Op
  | update : ItemEdit → ℕ → Op

/-- Apply one operation to the durable state. -/
def step (s : Item × List ContributionRecord) : Op → Item × List ContributionRecord
  | .contribute a u n t => applyContribute s a u n t
  | .update e now => (handleSubmitItemEdit s.1 e now, s.2)

/-- Run a sequence of operations. -/
def run (s : Item × List ContributionRecord) (ops : List Op) :
    Item × List ContributionRecord :=
  ops.foldl step s

/-- The rounding tolerance the spec names epsilon (its example value 1e-6
of a currency unit).  The source itself uses no tolerance anywhere. -/
def epsilon : ℚ := 1 / 1000000

/-- The `Bema Table` entry of `sampleItems` (main.jsx lines 128-138): a
cash item with `expectedCost` 800, `isPartialAllowed` true and 250 already
contributed. -/
def bemaTable : Item :=
  { itemName := "Bema Table"
    category := "Furniture"
    expectedCost := .num 800
    contributionType := .cash
    dateNeeded := "2026-01-15"
    isPartialAllowed := true
    status := .pending
    currentContributions := .num 250
    createdAt := 0
    createdBy := none
    creatorName := none
    contributorId := none
    contributorName := none
    updatedAt := none }

/-- The `Alter Table` entry of `sampleItems` (main.jsx lines 117-127): an
exclusive (`'item'`) entry. -/
def alterTable : Item :=
  { itemName := "Alter Table"
    category := "Furniture"
    expectedCost := .num 1500
    contributionType := .item
    dateNeeded := "2025-12-25"
    isPartialAllowed := false
    status := .pending
    currentContributions := .num 0
    createdAt := 0
    createdBy := none
    creatorName := none
    contributorId := none
    contributorName := none
    updatedAt := none }

/-- Form input that recreates the `Bema Table` item through the add flow. -/
def bemaEdit : ItemEdit :=
  { itemName := "Bema Table"
    category := "Furniture"
    itemCost := .num 800
    contributionType := .cash
    dateNeeded := "2026-01-15"
    allowPartial := true }

/-- The `Alter Table` item after a first exclusive claim by user `u1`. -/
def alterClaimed : Item :=
  { alterTable with
      status := .signedUp
      contributorId := some "u1"
      contributorName := some "Ann" }

/-- A fulfilled (`'Completed'`) cumulative item: `Bema Table` funded to its
full 800 target. -/
def bemaCompleted : Item :=
  { bemaTable with
      currentContributions := .num 800
      status := .completed }

/-- A cash item with `isPartialAllowed` false (the spec's Cumulative mode
with partial contributions disallowed), target 800, nothing contributed. -/
def exactCash : Item :=
  { itemName := "Sound System"
    category := "Equipment"
    expectedCost := .num 800
    contributionType := .cash
    dateNeeded := "2026-03-01"
    isPartialAllowed := false
    status := .pending
    currentContributions := .num 0
    createdAt := 0
    createdBy := none
    creatorName := none
    contributorId := none
    contributorName := none
    updatedAt := none }

/-- A cumulative item with target 1000 and 800 contributed, status
`'Signed Up'` (the spec's Committed), for the retroactive-edit scenario. -/
def committedItem : Item :=
  { itemName := "New Flag Pole"
    category := "Exterior"
    expectedCost := .num 1000
    contributionType := .cash
    dateNeeded := "2025-11-01"
    isPartialAllowed := true
    status := .signedUp
    currentContributions := .num 800
    createdAt := 0
    createdBy := none
    creatorName := none
    contributorId := none
    contributorName := none
    updatedAt := none }

/-- The admin edit that lowers `committedItem`'s target cost to 700 while
keeping every other field. -/
def lowerEdit : ItemEdit :=
  { itemName := "New Flag Pole"
    category := "Exterior"
    itemCost := .num 700
    contributionType := .cash
    dateNeeded := "2025-11-01"
    allowPartial := true }

/-- Unfolding lemma: on an exclusive (`'item'`) entry, `handleContribute`
unconditionally issues the sign-up write. -/
lemma handleContribute_item (it : Item) (a : JSNum) (u n : String) (ts : ℕ)
    (hc : it.contributionType = ContributionType.item) :
    handleContribute it a u n ts
      = ContributeOutcome.signedUp
          { it with
              status := Status.signedUp
              contributorId := some u
              contributorName := some n } := by
  simp [handleContribute, hc]

/-- Unfolding lemma: on a cash entry with `isPartialAllowed` true,
`handleContribute` rejects iff `isNaN(amount) || amount <= 0`, and
otherwise commits the transaction's two writes. -/
lemma handleContribute_cash (it : Item) (a : JSNum) (u n : String) (ts : ℕ)
    (hc : it.contributionType = ContributionType.cash)
    (hip : it.isPartialAllowed = true) :
    handleContribute it a u n ts
      = if (a.isNaN || a.le0) then ContributeOutcome.invalidAmount
        else
          ContributeOutcome.contributed
            { it with
                currentContributions := (jsOr0 it.currentContributions).add a
                status :=
                  if ((jsOr0 it.currentContributions).add a).jge it.expectedCost
                  then Status.completed else Status.signedUp }
            { userId := u
              amount := a
              timestamp := ts
              contributorName := n } := by
  simp [handleContribute, hc, hip]

/-- Unfolding lemma: a cash entry with `isPartialAllowed` false matches
neither branch of `handleContribute` — the call is a silent no-op. -/
lemma handleContribute_cashExact (it : Item) (a : JSNum) (u n : String) (ts : ℕ)
    (hc : it.contributionType = ContributionType.cash)
    (hip : it.isPartialAllowed = false) :
    handleContribute it a u n ts = ContributeOutcome.noop := by
  simp [handleContribute, hc, hip]

/-- Inversion: what a `signedUp` or `contributed` outcome must look like. -/
lemma handleContribute_inv (it : Item) (a : JSNum) (u n : String) (ts : ℕ) :
    (∀ it2 rec, handleContribute it a u n ts = ContributeOutcome.contributed it2 rec →
        it2 = { it with
                  currentContributions := (jsOr0 it.currentContributions).add a
                  status :=
                    if ((jsOr0 it.currentContributions).add a).jge it.expectedCost
                    then Status.completed else Status.signedUp }
          ∧ rec = { userId := u, amount := a, timestamp := ts, contributorName := n })
    ∧ (∀ it2, handleContribute it a u n ts = ContributeOutcome.signedUp it2 →
        it2 = { it with
                  status := Status.signedUp
                  contributorId := some u
                  contributorName := some n }) := by
  cases hct : it.contributionType
  case item =>
    constructor
    · intro it2 rec h
      rw [handleContribute_item it a u n ts hct] at h
      exact ContributeOutcome.noConfusion h
    · intro it2 h
      rw [handleContribute_item it a u n ts hct] at h
      injection h with h1
      exact h1.symm.trans (by rw [hct])
  case cash =>
    by_cases hip : it.isPartialAllowed
    · constructor
      · intro it2 rec h
        rw [handleContribute_cash it a u n ts hct hip] at h
        by_cases hv : (a.isNaN || a.le0) = true
        · rw [if_pos hv] at h
          exact ContributeOutcome.noConfusion h
        · rw [if_neg hv] at h
          injection h with h1 h2
          exact ⟨h1.symm.trans (by rw [hct]), h2.symm⟩
      · intro it2 h
        rw [handleContribute_cash it a u n ts hct hip] at h
        by_cases hv : (a.isNaN || a.le0) = true
        · rw [if_pos hv] at h
          exact ContributeOutcome.noConfusion h
        · rw [if_neg hv] at h
          exact ContributeOutcome.noConfusion h
    · have hip2 : it.isPartialAllowed = false := by simpa using hip
      constructor
      · intro it2 rec h
        rw [handleContribute_cashExact it a u n ts hct hip2] at h
        exact ContributeOutcome.noConfusion h
      · intro it2 h
        rw [handleContribute_cashExact it a u n ts hct hip2] at h
        exact ContributeOutcome.noConfusion h

/-- Reflexivity of the JavaScript `>=` on non-NaN values. -/
lemma JSNum.jge_refl (x : JSNum) (h : x.isNaN = false) : x.jge x = true := by
  cases x <;> simp_all [JSNum.isNaN, JSNum.jge]

/-- Adding an accepted amount (not NaN, not `<= 0`) to a non-NaN,
non-negative-infinite total never decreases it. -/
lemma jsOr0_add_jge (x a : JSNum) (hx1 : x.isNaN = false)
    (hx2 : x ≠ JSNum.negInf) (ha1 : a.isNaN = false) (ha2 : a.le0 = false) :
    ((jsOr0 x).add a).jge x = true := by
  cases x <;> cases a <;>
    simp_all [JSNum.isNaN, JSNum.le0, JSNum.add, JSNum.jge, jsOr0] <;>
    linarith

/-- Claim C1, counterexample: create the `Bema Table` item through the add
flow, contribute 250, then contribute 551 — the code accepts it and the
durable total becomes 801, exceeding the 800 target by far more than
epsilon. -/
theorem c1_counterexample :
    ((run (handleSubmitItemAdd bemaEdit "admin" "Admin" 0, [])
        [Op.contribute (JSNum.num 250) "u1" "Ann" 1,
         Op.contribute (JSNum.num 551) "u2" "Ben" 2]).1.currentContributions
      = JSNum.num 801)
    ∧ ¬ ((801 : ℚ) ≤ 800 + epsilon) := by
  norm_num [run, step, applyContribute, handleContribute, handleSubmitItemAdd,
    handleSubmitItemEdit, editPartialFlag, bemaEdit, bemaTable, alterTable,
    alterClaimed, bemaCompleted, exactCash, committedItem, lowerEdit, jsOr0,
    JSNum.isNaN, JSNum.le0, JSNum.add, JSNum.jge, epsilon, List.foldl] <;> decide

/-- Claim C2, counterexample: on the spec's own scenario (target 800,
`isPartialAllowed` true, 250 contributed) the call `Contribute(551)` is not
rejected with InvalidAmount — it succeeds, the total becomes 801 and the
status `'Completed'`. -/
theorem c2_counterexample :
    handleContribute bemaTable (JSNum.num 551) "u2" "Ben" 2
        ≠ ContributeOutcome.invalidAmount
    ∧ (applyContribute (bemaTable, []) (JSNum.num 551) "u2" "Ben" 2).1.currentContributions
        = JSNum.num 801
    ∧ (applyContribute (bemaTable, []) (JSNum.num 551) "u2" "Ben" 2).1.status
        = Status.completed := by
  norm_num [run, step, applyContribute, handleContribute, handleSubmitItemAdd,
    handleSubmitItemEdit, editPartialFlag, bemaEdit, bemaTable, alterTable,
    alterClaimed, bemaCompleted, exactCash, committedItem, lowerEdit, jsOr0,
    JSNum.isNaN, JSNum.le0, JSNum.add, JSNum.jge, epsilon, List.foldl] <;> decide

/-- Claim C3, counterexample: claiming the exclusive `Alter Table` item
records the claim (`contributorId` set) but the derived status is
`'Signed Up'`, not `'Completed'` — so status is not Fulfilled although the
item is Exclusive and claimed, refuting the stated iff. -/
theorem c3_counterexample :
    (applyContribute (alterTable, []) (JSNum.num 0) "u1" "Ann" 1).1.contributorId
        = some "u1"
    ∧ (applyContribute (alterTable, []) (JSNum.num 0) "u1" "Ann" 1).1.status
        ≠ Status.completed := by
  norm_num [run, step, applyContribute, handleContribute, handleSubmitItemAdd,
    handleSubmitItemEdit, editPartialFlag, bemaEdit, bemaTable, alterTable,
    alterClaimed, bemaCompleted, exactCash, committedItem, lowerEdit, jsOr0,
    JSNum.isNaN, JSNum.le0, JSNum.add, JSNum.jge, epsilon, List.foldl] <;> decide

/-- Claim C4, counterexample: a Contribute on the already-claimed exclusive
`Alter Table` item is not rejected — the handler applies it again,
overwriting `contributorId`/`contributorName` with the second caller. -/
theorem c4_counterexample :
    handleContribute alterClaimed (JSNum.num 0) "u2" "Ben" 2
      = ContributeOutcome.signedUp
          { alterClaimed with
              contributorId := some "u2"
              contributorName := some "Ben" } := by
  norm_num [run, step, applyContribute, handleContribute, handleSubmitItemAdd,
    handleSubmitItemEdit, editPartialFlag, bemaEdit, bemaTable, alterTable,
    alterClaimed, bemaCompleted, exactCash, committedItem, lowerEdit, jsOr0,
    JSNum.isNaN, JSNum.le0, JSNum.add, JSNum.jge, epsilon, List.foldl] <;> decide

/-- Claim C5, counterexample: the fully funded (`'Completed'`) `Bema Table`
item still accepts `Contribute(50)` — the total rises to 850 and a new
record is appended, instead of the claimed AlreadyFulfilled rejection. -/
theorem c5_counterexample :
    (applyContribute (bemaCompleted, []) (JSNum.num 50) "u3" "Cy" 3).1.currentContributions
        = JSNum.num 850
    ∧ (applyContribute (bemaCompleted, []) (JSNum.num 50) "u3" "Cy" 3).2
        ≠ ([] : List ContributionRecord) := by
  norm_num [run, step, applyContribute, handleContribute, handleSubmitItemAdd,
    handleSubmitItemEdit, editPartialFlag, bemaEdit, bemaTable, alterTable,
    alterClaimed, bemaCompleted, exactCash, committedItem, lowerEdit, jsOr0,
    JSNum.isNaN, JSNum.le0, JSNum.add, JSNum.jge, epsilon, List.foldl] <;> decide

/-- Claim C6, counterexample: on a cash item with `isPartialAllowed` false
(target 800, nothing contributed), `Contribute(800)` does not succeed with
status Fulfilled — `handleContribute` has no branch for this item shape, so
the call is a silent no-op; `Contribute(799.99)` is equally a no-op instead
of InvalidAmount. -/
theorem c6_counterexample :
    handleContribute exactCash (JSNum.num 800) "u1" "Ann" 1 = ContributeOutcome.noop
    ∧ applyContribute (exactCash, []) (JSNum.num 800) "u1" "Ann" 1 = (exactCash, [])
    ∧ handleContribute exactCash (JSNum.num (79999 / 100)) "u1" "Ann" 1
        = ContributeOutcome.noop := by
  norm_num [run, step, applyContribute, handleContribute, handleSubmitItemAdd,
    handleSubmitItemEdit, editPartialFlag, bemaEdit, bemaTable, alterTable,
    alterClaimed, bemaCompleted, exactCash, committedItem, lowerEdit, jsOr0,
    JSNum.isNaN, JSNum.le0, JSNum.add, JSNum.jge, epsilon, List.foldl] <;> decide

/-- Claim C7, counterexample: lowering the target of a `'Signed Up'` item
with 800 contributed from 1000 to 700 leaves the stored status `'Signed Up'`
— the edit path never re-derives status, contradicting the claimed
retroactive flip to Fulfilled. -/
theorem c7_counterexample :
    (handleSubmitItemEdit committedItem lowerEdit 9).status = Status.signedUp
    ∧ (handleSubmitItemEdit committedItem lowerEdit 9).expectedCost = JSNum.num 700
    ∧ (handleSubmitItemEdit committedItem lowerEdit 9).currentContributions
        = JSNum.num 800
    ∧ (handleSubmitItemEdit committedItem lowerEdit 9).status ≠ Status.completed := by
  norm_num [run, step, applyContribute, handleContribute, handleSubmitItemAdd,
    handleSubmitItemEdit, editPartialFlag, bemaEdit, bemaTable, alterTable,
    alterClaimed, bemaCompleted, exactCash, committedItem, lowerEdit, jsOr0,
    JSNum.isNaN, JSNum.le0, JSNum.add, JSNum.jge, epsilon, List.foldl] <;> decide

/-- Claim C9, counterexample: an infinite amount passes the
`isNaN(amount) || amount <= 0` check, so `Contribute(Infinity)` is accepted
rather than rejected with InvalidAmount, and the durable total becomes
`Infinity`. -/
theorem c9_counterexample :
    handleContribute bemaTable JSNum.posInf "u1" "Ann" 1
        ≠ ContributeOutcome.invalidAmount
    ∧ (applyContribute (bemaTable, []) JSNum.posInf "u1" "Ann" 1).1.currentContributions
        = JSNum.posInf := by
  norm_num [run, step, applyContribute, handleContribute, handleSubmitItemAdd,
    handleSubmitItemEdit, editPartialFlag, bemaEdit, bemaTable, alterTable,
    alterClaimed, bemaCompleted, exactCash, committedItem, lowerEdit, jsOr0,
    JSNum.isNaN, JSNum.le0, JSNum.add, JSNum.jge, epsilon, List.foldl] <;> decide

/-- Claim C1, amended: the bound `totalContributed ≤ targetCost + epsilon`
does not hold — a successful cash contribution adds the full amount with no
check against `expectedCost`, so the total can exceed the target by
arbitrarily more than epsilon (see the counterexample).  What the code does
guarantee is that across every Contribute/UpdateItem step the accumulated
total never decreases (totals reachable from creation are never NaN or
negative infinity). -/
theorem c1_total_nondecreasing (s : Item × List ContributionRecord) (op : Op)
    (h1 : s.1.currentContributions.isNaN = false)
    (h2 : s.1.currentContributions ≠ JSNum.negInf) :
    ((step s op).1.currentContributions.jge s.1.currentContributions) = true := by
  obtain ⟨it, log⟩ := s
  cases op with
  | update e now =>
      exact JSNum.jge_refl it.currentContributions h1
  | contribute a u n t =>
      cases hct : it.contributionType with
      | item =>
          have h := handleContribute_item it a u n t hct
          have hs : step (it, log) (Op.contribute a u n t)
              = ({ it with
                    status := Status.signedUp
                    contributorId := some u
                    contributorName := some n }, log) := by
            simp [step, applyContribute, h]
          rw [hs]
          exact JSNum.jge_refl it.currentContributions h1
      | cash =>
          by_cases hip : it.isPartialAllowed
          · by_cases hv : (a.isNaN || a.le0) = true
            · have h : handleContribute it a u n t = ContributeOutcome.invalidAmount := by
                rw [handleContribute_cash it a u n t hct hip, if_pos hv]
              have hs : step (it, log) (Op.contribute a u n t) = (it, log) := by
                simp [step, applyContribute, h]
              rw [hs]
              exact JSNum.jge_refl it.currentContributions h1
            · have hvf : (a.isNaN || a.le0) = false := by simpa using hv
              have h := handleContribute_cash it a u n t hct hip
              rw [if_neg hv] at h
              have hs : step (it, log) (Op.contribute a u n t)
                  = ({ it with
                        currentContributions := (jsOr0 it.currentContributions).add a
                        status :=
                          if ((jsOr0 it.currentContributions).add a).jge it.expectedCost
                          then Status.completed else Status.signedUp },
                     log ++ [{ userId := u, amount := a, timestamp := t,
                               contributorName := n }]) := by
                simp [step, applyContribute, h]
              rw [hs]
              rw [Bool.or_eq_false_iff] at hvf
              exact jsOr0_add_jge it.currentContributions a h1 h2 hvf.1 hvf.2
          · have hip2 : it.isPartialAllowed = false := by simpa using hip
            have h : handleContribute it a u n t = ContributeOutcome.noop :=
              handleContribute_cashExact it a u n t hct hip2
            have hs : step (it, log) (Op.contribute a u n t) = (it, log) := by
              simp [step, applyContribute, h]
            rw [hs]
            exact JSNum.jge_refl it.currentContributions h1

/-- Claim C1, witness: a concrete non-decreasing step on the sample item. -/
theorem c1_total_nondecreasing_witness :
    ((step (bemaTable, []) (Op.contribute (JSNum.num 10) "u" "n" 0)).1.currentContributions.jge
        bemaTable.currentContributions) = true :=
  c1_total_nondecreasing (bemaTable, []) (Op.contribute (JSNum.num 10) "u" "n" 0)
    rfl (by decide)

/-- Claim C2, amended: with `isPartialAllowed` true, the only validation is
on the amount itself — `handleContribute` returns the invalid-amount error
iff `isNaN(amount) || amount <= 0`; every other amount is accepted in full,
with no comparison against the remaining balance, so an overshooting
amount such as 551 against a remaining 550 succeeds (total 801, status
Completed) rather than being rejected. -/
theorem c2_accept_iff (it : Item) (a : JSNum) (u n : String) (ts : ℕ)
    (hc : it.contributionType = ContributionType.cash)
    (hip : it.isPartialAllowed = true) :
    handleContribute it a u n ts = ContributeOutcome.invalidAmount
      ↔ (a.isNaN || a.le0) = true := by
  rw [handleContribute_cash it a u n ts hc hip]
  by_cases hv : (a.isNaN || a.le0) = true
  · rw [if_pos hv]
    exact iff_of_true rfl hv
  · rw [if_neg hv]
    exact iff_of_false (fun h => ContributeOutcome.noConfusion h) hv

/-- Claim C2, witness: a non-positive amount is rejected on the sample item. -/
theorem c2_accept_iff_witness :
    handleContribute bemaTable (JSNum.num (-5)) "u" "n" 0
      = ContributeOutcome.invalidAmount :=
  (c2_accept_iff bemaTable (JSNum.num (-5)) "u" "n" 0 rfl rfl).mpr
    (by norm_num [JSNum.isNaN, JSNum.le0])

/-- Claim C3, amended: the derived status is `'Completed'` (Fulfilled) only
on the cumulative cash path, where the comparison against the target is
exact (no epsilon): after a successful contribution the status is Completed
iff the new total is `>=` the expected cost.  Claiming an Exclusive item
yields status `'Signed Up'` (Committed), never Fulfilled. -/
theorem c3_status_rule :
    (∀ it a u n ts, Item.contributionType it = ContributionType.item →
        ∃ it2, handleContribute it a u n ts = ContributeOutcome.signedUp it2
          ∧ it2.status = Status.signedUp)
    ∧ (∀ it a u n ts it2 rec,
        handleContribute it a u n ts = ContributeOutcome.contributed it2 rec →
          (it2.status = Status.completed
            ↔ (((jsOr0 it.currentContributions).add a).jge it.expectedCost) = true)) := by
  constructor
  · intro it a u n ts hc
    exact ⟨_, handleContribute_item it a u n ts hc, rfl⟩
  · intro it a u n ts it2 rec h
    obtain ⟨h1, _⟩ := (handleContribute_inv it a u n ts).1 it2 rec h
    subst h1
    show (if ((jsOr0 it.currentContributions).add a).jge it.expectedCost
          then Status.completed else Status.signedUp) = Status.completed
        ↔ (((jsOr0 it.currentContributions).add a).jge it.expectedCost) = true
    by_cases hj : (((jsOr0 it.currentContributions).add a).jge it.expectedCost) = true
    · rw [if_pos hj]
      exact iff_of_true rfl hj
    · rw [if_neg hj]
      exact iff_of_false (fun hh => Status.noConfusion hh) hj

/-- Claim C3, witness: the exclusive half at the sample `Alter Table` item. -/
theorem c3_status_rule_witness :
    ∃ it2, handleContribute alterTable (JSNum.num 0) "u" "n" 0
        = ContributeOutcome.signedUp it2 ∧ it2.status = Status.signedUp :=
  c3_status_rule.1 alterTable (JSNum.num 0) "u" "n" 0 rfl

/-- Claim C4, amended: for Exclusive (`'item'`) entries the contribution log
indeed never grows (so it holds at most one — in fact zero — records), but a
Contribute on an already-claimed Exclusive item is not rejected: the
handler applies the sign-up write unconditionally, overwriting
`contributorId` and `contributorName` with the new caller. -/
theorem c4_exclusive_apply (it : Item) (log : List ContributionRecord)
    (a : JSNum) (u n : String) (ts : ℕ)
    (hc : it.contributionType = ContributionType.item) :
    applyContribute (it, log) a u n ts
      = ({ it with
            status := Status.signedUp
            contributorId := some u
            contributorName := some n }, log) := by
  simp [applyContribute, handleContribute_item it a u n ts hc]

/-- Claim C4, witness: the second claim on the already-claimed item goes
through and replaces the first contributor. -/
theorem c4_exclusive_apply_witness :
    applyContribute (alterClaimed, []) (JSNum.num 0) "u2" "Ben" 2
      = ({ alterClaimed with
            status := Status.signedUp
            contributorId := some "u2"
            contributorName := some "Ben" }, []) :=
  c4_exclusive_apply alterClaimed [] (JSNum.num 0) "u2" "Ben" 2 rfl

/-- Claim C5, amended: `handleContribute` never reads the stored status, so
its outcome is identical whatever that status is — in particular a
`'Completed'` (Fulfilled) cumulative item still accepts further
contributions.  The only guard in the source is the UI, which renders the
contribution form only when its (possibly stale) snapshot has status
`'Pending'`. -/
theorem c5_status_ignored (it : Item) (s : Status) (a : JSNum) (u n : String)
    (ts : ℕ) :
    handleContribute { it with status := s } a u n ts
      = handleContribute it a u n ts := by
  obtain ⟨nm, cat, ec, ct, dn, ipa, st, cc, ca, cb, crn, cid, cnm, ua⟩ := it
  cases ct <;> rfl

/-- Claim C6, amended: a cash item with `isPartialAllowed` false matches
neither branch of `handleContribute`: every Contribute on it — the exact
remaining balance included — is a silent no-op with no error and no durable
change; there is no exact-amount acceptance path at all. -/
theorem c6_exact_mode_noop (it : Item) (log : List ContributionRecord)
    (a : JSNum) (u n : String) (ts : ℕ)
    (hc : it.contributionType = ContributionType.cash)
    (hip : it.isPartialAllowed = false) :
    handleContribute it a u n ts = ContributeOutcome.noop
    ∧ applyContribute (it, log) a u n ts = (it, log) := by
  have h := handleContribute_cashExact it a u n ts hc hip
  exact ⟨h, by simp [applyContribute, h]⟩

/-- Claim C6, witness: a concrete no-op on the exact-amount sample item. -/
theorem c6_exact_mode_noop_witness :
    handleContribute exactCash (JSNum.num 250) "u" "n" 0 = ContributeOutcome.noop
    ∧ applyContribute (exactCash, []) (JSNum.num 250) "u" "n" 0 = (exactCash, []) :=
  c6_exact_mode_noop exactCash [] (JSNum.num 250) "u" "n" 0 rfl rfl

/-- Claim C7, amended: the edit path does not re-run any status derivation:
`handleSubmitItemEdit` writes only the form's descriptive fields plus
`updatedAt`, leaving `status` and `currentContributions` exactly as they
were — so lowering `targetCost` to or below the accumulated total leaves a
Pending/Committed item unchanged instead of flipping it to Fulfilled. -/
theorem c7_update_keeps_status (it : Item) (e : ItemEdit) (now : ℕ) :
    (handleSubmitItemEdit it e now).status = it.status
    ∧ (handleSubmitItemEdit it e now).currentContributions
        = it.currentContributions :=
  ⟨rfl, rfl⟩

/-- Claim C8, confirmed: a Contribute attempt has no durable side effect
unless it succeeds, and on success the total/claim update and the record
append happen together in one atomic state change: a rejected or
fall-through call leaves the state exactly as it was, a cash success
updates the total and appends exactly the one matching record in the same
step, and an exclusive sign-up rewrites the item without touching the log
or the total. -/
theorem c8_atomic (it : Item) (log : List ContributionRecord) (a : JSNum)
    (u n : String) (ts : ℕ) :
    (handleContribute it a u n ts = ContributeOutcome.invalidAmount →
        applyContribute (it, log) a u n ts = (it, log))
    ∧ (handleContribute it a u n ts = ContributeOutcome.noop →
        applyContribute (it, log) a u n ts = (it, log))
    ∧ (∀ it2 rec, handleContribute it a u n ts = ContributeOutcome.contributed it2 rec →
        applyContribute (it, log) a u n ts = (it2, log ++ [rec])
        ∧ it2.currentContributions = (jsOr0 it.currentContributions).add rec.amount
        ∧ rec.amount = a ∧ rec.userId = u ∧ rec.contributorName = n
        ∧ rec.timestamp = ts)
    ∧ (∀ it2, handleContribute it a u n ts = ContributeOutcome.signedUp it2 →
        applyContribute (it, log) a u n ts = (it2, log)
        ∧ it2.currentContributions = it.currentContributions) := by
  refine ⟨?_, ?_, ?_, ?_⟩
  · intro h
    simp [applyContribute, h]
  · intro h
    simp [applyContribute, h]
  · intro it2 rec h
    obtain ⟨h1, h2⟩ := (handleContribute_inv it a u n ts).1 it2 rec h
    subst h1; subst h2
    exact ⟨by simp [applyContribute, h], rfl, rfl, rfl, rfl, rfl⟩
  · intro it2 h
    obtain h1 := (handleContribute_inv it a u n ts).2 it2 h
    subst h1
    exact ⟨by simp [applyContribute, h], rfl⟩

/-- Claim C8, witness: the concrete atomic success on the sample item. -/
theorem c8_atomic_witness :
    applyContribute (bemaTable, []) (JSNum.num 100) "u7" "Eve" 7
      = ({ bemaTable with
            currentContributions := JSNum.num 350
            status := Status.signedUp },
         [{ userId := "u7", amount := JSNum.num 100, timestamp := 7,
            contributorName := "Eve" }]) :=
  ((c8_atomic bemaTable [] (JSNum.num 100) "u7" "Eve" 7).2.2.1
    { bemaTable with
        currentContributions := JSNum.num 350
        status := Status.signedUp }
    { userId := "u7", amount := JSNum.num 100, timestamp := 7,
      contributorName := "Eve" }
    (by norm_num [handleContribute, bemaTable, jsOr0, JSNum.isNaN, JSNum.le0,
      JSNum.add, JSNum.jge])).1

/-- Claim C9, amended: NaN and non-positive amounts (negative infinity
included) are rejected with the invalid-amount error and leave the durable
state unchanged, but the check is only `isNaN(amount) || amount <= 0`,
which positive infinity passes — an infinite amount is accepted and
committed instead of failing with InvalidAmount. -/
theorem c9_validation (it : Item) (log : List ContributionRecord) (a : JSNum)
    (u n : String) (ts : ℕ)
    (hc : it.contributionType = ContributionType.cash)
    (hip : it.isPartialAllowed = true) :
    ((a.isNaN || a.le0) = true →
        handleContribute it a u n ts = ContributeOutcome.invalidAmount
        ∧ applyContribute (it, log) a u n ts = (it, log))
    ∧ ((a.isNaN || a.le0) = false →
        ∃ it2 rec, handleContribute it a u n ts
          = ContributeOutcome.contributed it2 rec)
    ∧ (JSNum.posInf.isNaN || JSNum.posInf.le0) = false := by
  refine ⟨?_, ?_, rfl⟩
  · intro hv
    have h : handleContribute it a u n ts = ContributeOutcome.invalidAmount := by
      rw [handleContribute_cash it a u n ts hc hip, if_pos hv]
    exact ⟨h, by simp [applyContribute, h]⟩
  · intro hv
    exact ⟨{ it with
              currentContributions := (jsOr0 it.currentContributions).add a
              status :=
                if ((jsOr0 it.currentContributions).add a).jge it.expectedCost
                then Status.completed else Status.signedUp },
           { userId := u, amount := a, timestamp := ts, contributorName := n },
           by rw [handleContribute_cash it a u n ts hc hip,
                  if_neg (by simp [hv])]⟩

/-- Claim C9, witness: a concrete negative amount is rejected with no
durable change. -/
theorem c9_validation_witness :
    handleContribute bemaTable (JSNum.num (-7)) "w" "Flo" 4
        = ContributeOutcome.invalidAmount
    ∧ applyContribute (bemaTable, []) (JSNum.num (-7)) "w" "Flo" 4
        = (bemaTable, []) :=
  (c9_validation bemaTable [] (JSNum.num (-7)) "w" "Flo" 4 rfl rfl).1
    (by norm_num [JSNum.isNaN, JSNum.le0])

/-- Claim C10, confirmed: a successful cash contribution changes only
`currentContributions` and `status` on the item — every other stored field
is untouched — and appends exactly one record carrying the contributor's
id, resolved name, the amount, and the timestamp. -/
theorem c10_frame (it : Item) (log : List ContributionRecord) (a : JSNum)
    (u n : String) (ts : ℕ) (it2 : Item) (rec : ContributionRecord)
    (h : handleContribute it a u n ts = ContributeOutcome.contributed it2 rec) :
    applyContribute (it, log) a u n ts = (it2, log ++ [rec])
    ∧ rec = { userId := u, amount := a, timestamp := ts, contributorName := n }
    ∧ it2.itemName = it.itemName ∧ it2.category = it.category
    ∧ it2.expectedCost = it.expectedCost
    ∧ it2.contributionType = it.contributionType
    ∧ it2.isPartialAllowed = it.isPartialAllowed
    ∧ it2.dateNeeded = it.dateNeeded ∧ it2.createdAt = it.createdAt
    ∧ it2.createdBy = it.createdBy ∧ it2.creatorName = it.creatorName
    ∧ it2.contributorId = it.contributorId
    ∧ it2.contributorName = it.contributorName
    ∧ it2.updatedAt = it.updatedAt := by
  obtain ⟨h1, h2⟩ := (handleContribute_inv it a u n ts).1 it2 rec h
  subst h1; subst h2
  refine ⟨by simp [applyContribute, h], rfl, rfl, rfl, rfl, ?_, rfl, rfl, rfl,
    rfl, rfl, rfl, rfl, rfl⟩
  cases hct : it.contributionType <;>
    simp [handleContribute, hct] at h <;> simp [hct]

/-- Claim C10, witness: the concrete frame-preserving success. -/
theorem c10_frame_witness :
    applyContribute (bemaTable, []) (JSNum.num 20) "u9" "Dee" 11
      = ({ bemaTable with
            currentContributions := JSNum.num 270
            status := Status.signedUp },
         [{ userId := "u9", amount := JSNum.num 20, timestamp := 11,
            contributorName := "Dee" }]) :=
  (c10_frame bemaTable [] (JSNum.num 20) "u9" "Dee" 11
    { bemaTable with
        currentContributions := JSNum.num 270
        status := Status.signedUp }
    { userId := "u9", amount := JSNum.num 20, timestamp := 11,
      contributorName := "Dee" }
    (by norm_num [handleContribute, bemaTable, jsOr0, JSNum.isNaN, JSNum.le0,
      JSNum.add, JSNum.jge])).1

end Wishlist
